import Mathlib

/-!
Verification of the Paws OG eligibility checker (Node.js repository).

The development shallowly embeds the repository's source files:
  * `src/unnamed/part_000` (the `solana.js` utility: `createKeypairFromPrivateKey`,
    `signMessage`, `withRetry`),
  * `src/utils/api.js` (`checkPawsEligibility`, `checkEligibilityWithRetry`),
  * `src/utils/files.js` (`saveResults`),
  * `src/index.js` (`checkWalletEligibility`, `main`).

External collaborators are modelled as follows:
  * the `bs58` library is embedded as a genuine base-58 decoder/encoder over the
    Bitcoin alphabet (invalid characters fail, leading `1`s are leading zero bytes);
  * `@solana/web3.js` `Keypair.fromSecretKey` is abstracted to its 64-byte length
    requirement (the internal ed25519 consistency validation is out of scope); the
    public key is the last 32 bytes of the secret key, rendered in base 58;
  * `tweetnacl` detached signing is abstracted to a function producing 64 bytes
    (no claim inspects signature contents);
  * HTTP traffic through `axios` is an oracle `HttpInteraction` supplied per
    attempt: a received response carries the status and the response body fields
    consulted by the code (`success`, `data`, `error`); `noResponse` is the
    `error.request` branch (network failure / timeout); `setupError` is the
    request-setup branch;
  * `Math.random()` is an oracle stream of rationals, one per attempt;
  * timers (`setTimeout` waits) are recorded as the list of computed backoff
    delays rather than actually waited on;
  * the `p-limit` concurrency gate and the inter-account random sleeps reorder
    and delay tasks but each task still appends exactly one record; the batch is
    embedded as the index-ordered list of per-wallet results, which preserves
    every per-wallet value and every count.

JavaScript truthiness (`x || d`, `privateKey ? _ : _`) is embedded explicitly:
`undefined`/absent fields are `Option.none`, and an empty string is falsy.
-/

namespace Paws

/-! ## Base-58 (the `bs58` dependency, Bitcoin alphabet) -/

/-- The base-58 alphabet used by `bs58` (Bitcoin alphabet). -/
def base58Alphabet : List Char :=
  "123456789ABCDEFGHJKLMNPQRSTUVWXYZabcdefghijkmnopqrstuvwxyz".toList

/-- Index of a character in the base-58 alphabet; `none` for a non-alphabet
character (where `bs58.decode` throws). -/
def base58Index (c : Char) : Option Nat :=
  base58Alphabet.indexOf? c

/-- Big-endian base-256 digits of a natural number (fuelled for executability). -/
def natToBytesBEAux : Nat → Nat → List Nat
  | 0, _ => []
  | fuel + 1, n => if n = 0 then [] else natToBytesBEAux fuel (n / 256) ++ [n % 256]

/-- Big-endian base-256 digits of a natural number; `0` is the empty list. -/
def natToBytesBE (n : Nat) : List Nat :=
  natToBytesBEAux n n

/-- Base-58 digits of a natural number (fuelled for executability). -/
def natToBase58Aux : Nat → Nat → List Char
  | 0, _ => []
  | fuel + 1, n =>
    if n = 0 then [] else natToBase58Aux fuel (n / 58) ++ [base58Alphabet.getD (n % 58) '1']

/-- Base-58 digits of a natural number; `0` is the empty list. -/
def natToBase58 (n : Nat) : List Char :=
  natToBase58Aux n n

/-- `bs58.decode`: fails on any non-alphabet character; a leading `1` is a
leading zero byte; the rest is a big-number base conversion. -/
def bs58Decode (s : String) : Option (List Nat) :=
  let cs := s.toList
  if cs.any (fun c => (base58Index c).isNone) then none
  else
    let z := (cs.takeWhile (fun c => c = '1')).length
    let rest := cs.dropWhile (fun c => c = '1')
    let n := rest.foldl (fun acc c => acc * 58 + (base58Index c).getD 0) 0
    some (List.replicate z 0 ++ natToBytesBE n)

/-- `bs58.encode`: a leading zero byte is a leading `1`; the rest is a
big-number base conversion. -/
def bs58Encode (bytes : List Nat) : String :=
  let z := (bytes.takeWhile (fun b => b = 0)).length
  let n := bytes.foldl (fun acc b => acc * 256 + b) 0
  String.mk (List.replicate z '1' ++ natToBase58 n)

/-! ## Keypairs and signing (`src/unnamed/part_000`, the solana utility) -/

/-- A Solana keypair as held by `@solana/web3.js`: the 64-byte secret key
(32-byte seed followed by the 32-byte public key). -/
structure Keypair where
  secretKey : List Nat
deriving Repr, DecidableEq

/-- `Keypair.fromSecretKey` of `@solana/web3.js`, abstracted to its 64-byte
length requirement; any other length throws (here: `none`). -/
def fromSecretKey (bytes : List Nat) : Option Keypair :=
  if bytes.length = 64 then some ⟨bytes⟩ else none

/-- `keypair.publicKey.toBase58()`: the public key is the last 32 bytes of the
secret key, rendered in base 58. -/
def publicKeyToBase58 (kp : Keypair) : String :=
  bs58Encode (kp.secretKey.drop 32)

/-- `createKeypairFromPrivateKey` (src/unnamed/part_000, lines 11-24): decode
the base-58 private key and build the keypair; every error is caught inside and
surfaces as `null` (here: `none`), never as a thrown exception. -/
def createKeypairFromPrivateKey (privateKeyBase58 : String) : Option Keypair :=
  match bs58Decode privateKeyBase58 with
  | none => none
  | some bytes => fromSecretKey bytes

/-- The signature/public-key pair produced by `signMessage`. -/
structure SignedData where
  signature : String
  publicKey : String
deriving Repr, DecidableEq

/-- `nacl.sign.detached` of `tweetnacl`, abstracted: a 64-byte detached
signature over the message bytes; it throws when the secret key is not 64
bytes. Signature contents are not inspected by any claim. -/
def naclSignDetached (messageBytes secretKey : List Nat) : List Nat :=
  (messageBytes ++ secretKey ++ List.replicate 64 0).take 64

/-- `signMessage` (src/unnamed/part_000, lines 31-53): sign the configured
message; every error (in the embedding: a wrongly sized secret key, the one
condition that makes `tweetnacl` throw) is caught inside and surfaces as
`null` (here: `none`). Message bytes are abstracted to code points; their
contents are not inspected by any claim. -/
def signMessage (keypair : Keypair) (message : String) : Option SignedData :=
  if keypair.secretKey.length = 64 then
    some { signature := bs58Encode (naclSignDetached (message.toList.map Char.toNat) keypair.secretKey),
           publicKey := publicKeyToBase58 keypair }
  else none

/-! ## The retry executor (`withRetry`, src/unnamed/part_000, lines 62-91) -/

/-- The `retryOptions` configuration value object. -/
structure RetryOptions where
  retries : Nat
  minTimeout : Nat
  maxTimeout : Nat
deriving Repr, DecidableEq

/-- The backoff delay computed after the failure that raised the retry counter
to `retryCount`: `min(round(random() * 2^retryCount * minTimeout), maxTimeout)`. -/
def backoffTime (r : ℚ) (retryCount : Nat) (opts : RetryOptions) : Int :=
  min (round (r * 2 ^ retryCount * (opts.minTimeout : ℚ))) (opts.maxTimeout : Int)

/-- The `withRetry` loop. `op i` is the result of the `i`-th invocation of the
operation (0-based); `rand i` is the `Math.random()` draw used for the backoff
after invocation `i` fails. Returns the final result, the number of invocations
made, and the list of backoff delays waited. `fuel` is `opts.retries - i`, the
number of retries still allowed; the loop condition `retryCount <= retries` of
the source is the `i + 1 > opts.retries` test on the incremented counter. -/
def withRetryGo (op : Nat → Except String α) (rand : Nat → ℚ) (opts : RetryOptions) :
    Nat → Nat → Except String α × Nat × List Int
  | i, fuel =>
    match op i with
    | Except.ok r => (Except.ok r, i + 1, [])
    | Except.error e =>
      if i + 1 > opts.retries then (Except.error e, i + 1, [])
      else
        match fuel with
        | 0 => (Except.error e, i + 1, [])
        | fuel' + 1 =>
          let rest := withRetryGo op rand opts (i + 1) fuel'
          (rest.1, rest.2.1, backoffTime (rand i) (i + 1) opts :: rest.2.2)

/-- `withRetry` (src/unnamed/part_000, lines 62-91): run the operation, and on
a thrown failure retry with randomized exponential backoff until the retry
counter would exceed `opts.retries`, then rethrow the last failure. -/
def withRetry (op : Nat → Except String α) (rand : Nat → ℚ) (opts : RetryOptions) :
    Except String α × Nat × List Int :=
  withRetryGo op rand opts 0 opts.retries

/-! ## The eligibility client (`src/utils/api.js`) -/

/-- The `config.json` contents consulted by the embedded code paths. -/
structure Config where
  enableProxy : Bool
  concurrency : Nat
  delayMin : Nat
  delayMax : Nat
  retryOptions : RetryOptions
  apiEndpoint : String
  signatureMessage : String
  userAgent : String
deriving Repr, DecidableEq

/-- One attempt's HTTP outcome, as distinguished by the `catch` block of
`checkPawsEligibility`: a received response (with status and the body fields
the code reads), `axios`'s `error.request` branch (no response received:
network failure or the 30-second timeout), or a request-setup error. `axios`
resolves a response normally only for a 2xx status; any other received status
raises an error carrying `error.response`. -/
inductive HttpInteraction where
  | response (status : Nat) (success : Bool) (data : Nat) (error : Option String)
  | noResponse (message : String)
  | setupError (message : String)
deriving Repr, DecidableEq

/-- The classified result `checkPawsEligibility` returns. -/
structure EligResult where
  eligible : Bool
  amount : Nat
  error : Option String
deriving Repr, DecidableEq

/-- JavaScript `s || d` on an optional string: `undefined` and the empty
string are falsy. -/
def jsOrString (s : Option String) (d : String) : String :=
  match s with
  | some v => if v = "" then d else v
  | none => d

/-- The JSON body POSTed to the eligibility endpoint (src/utils/api.js,
lines 63-68). -/
structure RequestPayload where
  signature : String
  publicKey : String
  token : String
  authToken : String
deriving Repr, DecidableEq

/-- Payload construction of `checkPawsEligibility`: signature, public key, the
configured signature message as `token`, and an empty `authToken`. -/
def buildPayload (signedData : SignedData) (config : Config) : RequestPayload :=
  { signature := signedData.signature
    publicKey := signedData.publicKey
    token := config.signatureMessage
    authToken := "" }

/-- `checkPawsEligibility` (src/utils/api.js, lines 57-115), classifying one
HTTP interaction:
  * 2xx with `body.success` true: eligible, `amount = body.data`;
  * 2xx with `body.success` false: ineligible, `error = body.error || "Unknown error"`;
  * 400 whose `body.error` is exactly `"No OG drop"`: ineligible result, not a failure;
  * any other received error status: ineligible result with
    `error = body.error || "HTTP error <status>"`, still not a failure;
  * no response received: throws `No response from API: <message>`;
  * request-setup error: throws `Request error: <message>`.
The unused-by-classification arguments are kept from the source signature;
the payload the source builds from them is `buildPayload signedData config`. -/
def checkPawsEligibility (signedData : SignedData) (publicKey : String)
    (proxy : Option String) (config : Config) (interaction : HttpInteraction) :
    Except String EligResult :=
  match interaction with
  | HttpInteraction.response status success data err =>
    if 200 ≤ status ∧ status < 300 then
      if success then
        Except.ok { eligible := true, amount := data, error := none }
      else
        Except.ok { eligible := false, amount := 0, error := some (jsOrString err "Unknown error") }
    else
      if status = 400 ∧ err = some "No OG drop" then
        Except.ok { eligible := false, amount := 0, error := some "No OG drop" }
      else
        Except.ok { eligible := false, amount := 0,
                    error := some (jsOrString err ("HTTP error " ++ toString status)) }
  | HttpInteraction.noResponse message => Except.error ("No response from API: " ++ message)
  | HttpInteraction.setupError message => Except.error ("Request error: " ++ message)

/-- `checkEligibilityWithRetry` (src/utils/api.js, lines 127-157). The source
duplicates the `withRetry` loop of src/unnamed/part_000 line for line (same
counter, same termination test, same backoff formula); the embedding therefore
instantiates the shared loop with `checkPawsEligibility` as the operation,
`interactions i` being the HTTP outcome of the `i`-th attempt. -/
def checkEligibilityWithRetry (signedData : SignedData) (publicKey : String)
    (proxy : Option String) (config : Config) (retryOptions : RetryOptions)
    (interactions : Nat → HttpInteraction) (rand : Nat → ℚ) :
    Except String EligResult × Nat × List Int :=
  withRetry (fun i => checkPawsEligibility signedData publicKey proxy config (interactions i))
    rand retryOptions

/-! ## The per-wallet pipeline (`checkWalletEligibility`, src/index.js lines 39-103) -/

/-- The object returned by `checkWalletEligibility`. `amount : Option Nat`
models the JavaScript field: `none` is an absent (`undefined`) field — the
source's early-return and catch objects do not set `amount` at all. -/
structure CheckResult where
  publicKey : String
  eligible : Bool
  amount : Option Nat
  error : Option String
deriving Repr, DecidableEq

/-- Invocation counters observed while running one wallet's pipeline: how many
times keypair creation, signing and the eligibility call were invoked. -/
structure CheckCounts where
  kpCalls : Nat
  signCalls : Nat
  apiCalls : Nat
deriving Repr, DecidableEq

/-- The catch block of `checkWalletEligibility` (src/index.js, lines 94-101):
`publicKey` is the first 4 characters of the private key followed by `...`
(or `"unknown"` for a falsy, i.e. empty, private key), `eligible` is false,
`error` is the thrown message, and no `amount` field is set. -/
def catchResult (privateKey message : String) : CheckResult :=
  { publicKey := if privateKey = "" then "unknown" else privateKey.take 4 ++ "..."
    eligible := false
    amount := none
    error := some message }

/-- `checkWalletEligibility` (src/index.js, lines 39-103): create the keypair
through `withRetry` (the operation returns `null` on failure rather than
throwing, so `withRetry` sees a success either way), early-return on a `null`
keypair, sign through `withRetry` (same `null` convention), then call
`checkEligibilityWithRetry`; any failure thrown out of the `try` block lands
in `catchResult`. Alongside the result, the invocation counters are returned. -/
def checkWalletEligibility (privateKey : String) (proxy : Option String) (config : Config)
    (interactions : Nat → HttpInteraction) (rand : Nat → ℚ) :
    CheckResult × CheckCounts :=
  match withRetry (fun _ => Except.ok (createKeypairFromPrivateKey privateKey))
      rand config.retryOptions with
  | (Except.error e, n, _) => (catchResult privateKey e, ⟨n, 0, 0⟩)
  | (Except.ok none, n, _) =>
    ({ publicKey := "unknown", eligible := false, amount := none,
       error := some "Failed to create keypair" }, ⟨n, 0, 0⟩)
  | (Except.ok (some keypair), n, _) =>
    let publicKey := publicKeyToBase58 keypair
    match withRetry (fun _ => Except.ok (signMessage keypair config.signatureMessage))
        rand config.retryOptions with
    | (Except.error e, m, _) => (catchResult privateKey e, ⟨n, m, 0⟩)
    | (Except.ok none, m, _) =>
      ({ publicKey := publicKey, eligible := false, amount := none,
         error := some "Failed to sign message" }, ⟨n, m, 0⟩)
    | (Except.ok (some signedData), m, _) =>
      match checkEligibilityWithRetry signedData publicKey proxy config
          config.retryOptions interactions rand with
      | (Except.ok r, k, _) =>
        ({ publicKey := publicKey, eligible := r.eligible, amount := some r.amount,
           error := r.error }, ⟨n, m, k⟩)
      | (Except.error e, k, _) => (catchResult privateKey e, ⟨n, m, k⟩)

/-! ## Result persistence (`saveResults`, src/utils/files.js lines 92-126) -/

/-- A per-wallet record as stored in the `results` collection: the
`checkWalletEligibility` result with the original private key attached by the
task body (src/index.js, line 150). -/
structure WalletResult where
  publicKey : String
  eligible : Bool
  amount : Option Nat
  error : Option String
  privateKey : String
deriving Repr, DecidableEq

/-- Attach the original private key to a pipeline result (src/index.js,
line 150: `result.privateKey = privateKey`). -/
def attachKey (privateKey : String) (r : CheckResult) : WalletResult :=
  ⟨r.publicKey, r.eligible, r.amount, r.error, privateKey⟩

/-- JavaScript template-literal rendering of the optional `amount` field
(`undefined` prints as the string `undefined`). -/
def jsNumberRepr (amount : Option Nat) : String :=
  match amount with
  | some n => toString n
  | none => "undefined"

/-- The line written for an eligible record: `privateKey:publicKey:amount`. -/
def eligibleLine (r : WalletResult) : String :=
  r.privateKey ++ ":" ++ r.publicKey ++ ":" ++ jsNumberRepr r.amount

/-- The line written for an ineligible record: `privateKey:publicKey`. -/
def notEligibleLine (r : WalletResult) : String :=
  r.privateKey ++ ":" ++ r.publicKey

/-- `saveResults` (src/utils/files.js, lines 92-126): partition the records on
the `eligible` flag and format each side's lines; returns
`(eligible.txt lines, noteligible.txt lines)`. Both files are always written,
an empty partition as empty content. -/
def saveResults (results : List WalletResult) : List String × List String :=
  ((results.filter (fun r => r.eligible)).map eligibleLine,
   (results.filter (fun r => !r.eligible)).map notEligibleLine)

/-- File contents: the lines joined with `\n` (`join('\n')` of the source); an
empty partition yields the empty string. -/
def fileContent (lines : List String) : String :=
  String.intercalate "\n" lines

/-! ## The batch runner (`main`, src/index.js lines 108-182) -/

/-- Proxy selection for the wallet at input index `i` (src/index.js,
lines 143-145): `proxies[i % proxies.length]` when proxy usage is enabled and
the proxy list is non-empty, `null` otherwise. A pure function of the input
index, independent of task scheduling. -/
def assignProxy (config : Config) (proxies : List String) (i : Nat) : Option String :=
  if config.enableProxy ∧ 0 < proxies.length then
    proxies[i % proxies.length]?
  else none

/-- The `results` collection after all tasks complete: one record per input
private key, the wallet at index `i` using proxy `assignProxy config proxies i`,
HTTP oracle `interactions i` and random stream `rand i`. The `p-limit` gate and
random sleeps only schedule the tasks; each task pushes exactly one record, so
the collection is embedded in input order. -/
def mainResults (privateKeys : List String) (config : Config) (proxies : List String)
    (interactions : Nat → Nat → HttpInteraction) (rand : Nat → Nat → ℚ) :
    List WalletResult :=
  privateKeys.enum.map fun p =>
    attachKey p.2
      (checkWalletEligibility p.2 (assignProxy config proxies p.1) config
        (interactions p.1) (rand p.1)).1

/-- `main` (src/index.js, lines 108-182) after configuration loading: abort
with the logged error message when zero private keys were loaded (before any
task is created, no output files written); otherwise process every wallet and
save the results. Returns the results collection together with the two output
files' lines. -/
def mainRun (privateKeys : List String) (config : Config) (proxies : List String)
    (interactions : Nat → Nat → HttpInteraction) (rand : Nat → Nat → ℚ) :
    Except String (List WalletResult × List String × List String) :=
  if privateKeys.length = 0 then
    Except.error "No private keys found in pk.txt"
  else
    let results := mainResults privateKeys config proxies interactions rand
    Except.ok (results, saveResults results)


/-! ## Concrete fixtures used by witness theorems -/


/-- A concrete well-formed private key: 64 characters `1`, decoding to 64 zero
bytes (a 64-byte secret key in the embedding). -/
def pkAllOnes : String := String.mk (List.replicate 64 '1')

/-- A concrete configuration used by the witness theorems (`retries = 2`). -/
def fixtureConfig : Config :=
  { enableProxy := false, concurrency := 1, delayMin := 3000, delayMax := 7000,
    retryOptions := { retries := 2, minTimeout := 5000, maxTimeout := 15000 },
    apiEndpoint := "https://api.paws.community/v1/wallet/solana/og",
    signatureMessage := "sign me", userAgent := "ua" }


/-! ## Properties of the retry executor and the pipeline -/


/-- A successful invocation returns immediately: no retries, no backoff. -/
theorem withRetryGo_ok {α : Type} (op : Nat → Except String α) (rand : Nat → ℚ)
    (opts : RetryOptions) (i fuel : Nat) (r : α) (h : op i = Except.ok r) :
    withRetryGo op rand opts i fuel = (Except.ok r, i + 1, []) := by
  cases fuel <;> (rw [withRetryGo]; simp [h])

/-- An operation that returns without throwing is invoked exactly once (this is
how the `null`-returning keypair and signing operations pass through the
executor). -/
theorem withRetry_const_ok {α : Type} (x : α) (rand : Nat → ℚ) (opts : RetryOptions) :
    withRetry (fun _ => Except.ok x) rand opts = (Except.ok x, 1, []) := by
  exact withRetryGo_ok _ rand opts 0 opts.retries x rfl

/-- The invocation counter never exceeds the remaining fuel plus one. -/
theorem withRetryGo_count_le {α : Type} (op : Nat → Except String α) (rand : Nat → ℚ)
    (opts : RetryOptions) :
    ∀ fuel i, (withRetryGo op rand opts i fuel).2.1 ≤ i + fuel + 1 := by
  intro fuel
  induction fuel with
  | zero =>
    intro i
    rw [withRetryGo]
    cases h : op i <;> simp
  | succ fuel ih =>
    intro i
    rw [withRetryGo]
    cases h : op i with
    | ok r => simp
    | error e =>
      by_cases hgt : i + 1 > opts.retries
      · simp [hgt]
      · simp only [hgt, if_false]
        have h2 := ih (i + 1)
        show (withRetryGo op rand opts (i + 1) fuel).2.1 ≤ i + (fuel + 1) + 1
        omega

/-- Every computed backoff delay is clamped to `maxTimeout`. -/
theorem withRetryGo_backoff_le {α : Type} (op : Nat → Except String α) (rand : Nat → ℚ)
    (opts : RetryOptions) :
    ∀ fuel i b, b ∈ (withRetryGo op rand opts i fuel).2.2 → b ≤ (opts.maxTimeout : Int) := by
  intro fuel
  induction fuel with
  | zero =>
    intro i b hb
    rw [withRetryGo] at hb
    cases h : op i <;> rw [h] at hb <;> simp at hb
  | succ fuel ih =>
    intro i b hb
    rw [withRetryGo] at hb
    cases h : op i with
    | ok r => rw [h] at hb; simp at hb
    | error e =>
      rw [h] at hb
      by_cases hgt : i + 1 > opts.retries
      · simp [hgt] at hb
      · simp only [hgt, if_false] at hb
        have hb2 : b ∈ backoffTime (rand i) (i + 1) opts :: (withRetryGo op rand opts (i + 1) fuel).2.2 := hb
        rcases List.mem_cons.mp hb2 with hb3 | hb3
        · subst hb3
          exact min_le_right _ _
        · exact ih (i + 1) b hb3

/-- When every attempt fails, the loop exhausts its retries: the last failure is
returned after exactly `fuel + 1` further invocations. -/
theorem withRetryGo_all_error {α : Type} (op : Nat → Except String α) (rand : Nat → ℚ)
    (opts : RetryOptions) (e : String) (h : ∀ j, op j = Except.error e) :
    ∀ fuel i, i + fuel = opts.retries →
      (withRetryGo op rand opts i fuel).1 = Except.error e ∧
      (withRetryGo op rand opts i fuel).2.1 = i + fuel + 1 := by
  intro fuel
  induction fuel with
  | zero =>
    intro i hi
    rw [withRetryGo]
    rw [h i]
    have hgt : i + 1 > opts.retries := by omega
    simp [hgt]
  | succ fuel ih =>
    intro i hi
    rw [withRetryGo]
    rw [h i]
    have hgt : ¬(i + 1 > opts.retries) := by omega
    simp only [hgt, if_false]
    have h2 := ih (i + 1) (by omega)
    constructor
    · show (withRetryGo op rand opts (i + 1) fuel).1 = Except.error e
      exact h2.1
    · show (withRetryGo op rand opts (i + 1) fuel).2.1 = i + (fuel + 1) + 1
      omega

/-- A successful final result is the result of one of the invocations. -/
theorem withRetryGo_ok_exists {α : Type} (op : Nat → Except String α) (rand : Nat → ℚ)
    (opts : RetryOptions) :
    ∀ fuel i v, (withRetryGo op rand opts i fuel).1 = Except.ok v → ∃ j, op j = Except.ok v := by
  intro fuel
  induction fuel with
  | zero =>
    intro i v hv
    rw [withRetryGo] at hv
    cases h : op i with
    | ok r =>
      rw [h] at hv
      simp at hv
      exact ⟨i, by rw [h, hv]⟩
    | error e =>
      rw [h] at hv
      by_cases hgt : i + 1 > opts.retries <;> simp [hgt] at hv
  | succ fuel ih =>
    intro i v hv
    rw [withRetryGo] at hv
    cases h : op i with
    | ok r =>
      rw [h] at hv
      simp at hv
      exact ⟨i, by rw [h, hv]⟩
    | error e =>
      rw [h] at hv
      by_cases hgt : i + 1 > opts.retries
      · simp [hgt] at hv
      · simp only [hgt, if_false] at hv
        have hv2 : (withRetryGo op rand opts (i + 1) fuel).1 = Except.ok v := hv
        exact ih (i + 1) v hv2

/-- The first successful invocation ends the loop: failures on attempts before
`k` and success at `k` give result `r` after exactly `k + 1` invocations. -/
theorem withRetryGo_success_at {α : Type} (op : Nat → Except String α) (rand : Nat → ℚ)
    (opts : RetryOptions) (r : α) :
    ∀ fuel i k, i + fuel = opts.retries → i ≤ k → k ≤ opts.retries →
      op k = Except.ok r →
      (∀ j, i ≤ j → j < k → ∃ e, op j = Except.error e) →
      (withRetryGo op rand opts i fuel).1 = Except.ok r ∧
      (withRetryGo op rand opts i fuel).2.1 = k + 1 := by
  intro fuel
  induction fuel with
  | zero =>
    intro i k hi hik hk hok _
    have hik2 : i = k := by omega
    subst hik2
    rw [withRetryGo_ok op rand opts i 0 r hok]
    simp
  | succ fuel ih =>
    intro i k hi hik hk hok hfail
    rcases Nat.eq_or_lt_of_le hik with heq | hlt
    · subst heq
      rw [withRetryGo_ok op rand opts i (fuel + 1) r hok]
      simp
    · obtain ⟨e, he⟩ := hfail i (le_refl i) hlt
      rw [withRetryGo]
      rw [he]
      have hgt : ¬(i + 1 > opts.retries) := by omega
      simp only [hgt, if_false]
      have h2 := ih (i + 1) k (by omega) (by omega) hk hok
        (fun j hj1 hj2 => hfail j (by omega) hj2)
      constructor
      · show (withRetryGo op rand opts (i + 1) fuel).1 = Except.ok r
        exact h2.1
      · show (withRetryGo op rand opts (i + 1) fuel).2.1 = k + 1
        exact h2.2

/-- With `retries = 0` the operation runs exactly once and a failure propagates
with no backoff. -/
theorem withRetry_zero {α : Type} (op : Nat → Except String α) (rand : Nat → ℚ)
    (opts : RetryOptions) (h : opts.retries = 0) :
    (withRetry op rand opts).2.1 = 1 ∧
    ∀ e, op 0 = Except.error e → withRetry op rand opts = (Except.error e, 1, []) := by
  unfold withRetry
  rw [h]
  constructor
  · rw [withRetryGo]
    cases hop : op 0 with
    | ok r => simp
    | error e => have hgt : 0 + 1 > opts.retries := by omega
                 simp [hgt]
  · intro e he
    rw [withRetryGo, he]
    have hgt : 0 + 1 > opts.retries := by omega
    simp [hgt]

/-- When every attempt fails, the loop's final result is a thrown failure. -/
theorem withRetryGo_all_error_exists {α : Type} (op : Nat → Except String α) (rand : Nat → ℚ)
    (opts : RetryOptions) :
    ∀ fuel i, (∀ j, ∃ e, op j = Except.error e) →
      ∃ e, (withRetryGo op rand opts i fuel).1 = Except.error e := by
  intro fuel
  induction fuel with
  | zero =>
    intro i h
    obtain ⟨e, he⟩ := h i
    rw [withRetryGo, he]
    by_cases hgt : i + 1 > opts.retries
    · exact ⟨e, by simp [hgt]⟩
    · exact ⟨e, by simp [hgt]⟩
  | succ fuel ih =>
    intro i h
    obtain ⟨e, he⟩ := h i
    rw [withRetryGo, he]
    by_cases hgt : i + 1 > opts.retries
    · exact ⟨e, by simp [hgt]⟩
    · obtain ⟨e2, he2⟩ := ih (i + 1) h
      refine ⟨e2, ?_⟩
      simp only [hgt, if_false]
      exact he2

/-- A keypair accepted by `fromSecretKey` holds a 64-byte secret key. -/
theorem fromSecretKey_length {bytes : List Nat} {kp : Keypair}
    (h : fromSecretKey bytes = some kp) : kp.secretKey.length = 64 := by
  unfold fromSecretKey at h
  by_cases hl : bytes.length = 64
  · simp [hl] at h
    rw [← h]
    exact hl
  · simp [hl] at h

/-- A keypair produced from a private key holds a 64-byte secret key. -/
theorem createKeypair_secretKey_length {pk : String} {kp : Keypair}
    (h : createKeypairFromPrivateKey pk = some kp) : kp.secretKey.length = 64 := by
  unfold createKeypairFromPrivateKey at h
  cases hd : bs58Decode pk with
  | none => rw [hd] at h; simp at h
  | some bytes => rw [hd] at h; exact fromSecretKey_length h

/-- The empty string never produces a keypair (it decodes to zero bytes). -/
theorem createKeypair_ne_empty {pk : String} {kp : Keypair}
    (h : createKeypairFromPrivateKey pk = some kp) : pk ≠ "" := by
  intro he
  subst he
  have : createKeypairFromPrivateKey "" = none := by decide
  rw [this] at h
  exact Option.noConfusion h

/-- Signing with a 64-byte secret key always succeeds and reports the derived
public key. -/
theorem signMessage_of_keypair {kp : Keypair} (msg : String)
    (h : kp.secretKey.length = 64) :
    signMessage kp msg =
      some { signature := bs58Encode (naclSignDetached (msg.toList.map Char.toNat) kp.secretKey),
             publicKey := publicKeyToBase58 kp } := by
  unfold signMessage
  simp [h]

/-- Every ineligible result `checkPawsEligibility` returns carries amount 0. -/
theorem paws_ok_amount {sd : SignedData} {pk : String} {px : Option String}
    {cfg : Config} {int : HttpInteraction} {v : EligResult}
    (h : checkPawsEligibility sd pk px cfg int = Except.ok v)
    (hv : v.eligible = false) : v.amount = 0 := by
  unfold checkPawsEligibility at h
  cases int with
  | response status success data err =>
    by_cases h2 : 200 ≤ status ∧ status < 300
    · simp only [h2, if_true] at h
      cases success
      · simp at h
        rw [← h]
      · simp at h
        rw [← h] at hv
        simp at hv
    · simp only [h2, if_false] at h
      by_cases h4 : status = 400 ∧ err = some "No OG drop"
      · simp only [h4, if_true] at h
        simp at h
        rw [← h]
      · simp only [h4, if_false] at h
        simp at h
        rw [← h]
  | noResponse m => simp at h
  | setupError m => simp at h

/-- A transport interaction (no response received, or a request-setup error)
always makes the eligibility call throw. -/
theorem pawsElig_transport_error (sd : SignedData) (pub : String) (proxy : Option String)
    (config : Config) (int : HttpInteraction)
    (h : (∃ m, int = HttpInteraction.noResponse m) ∨
      (∃ m, int = HttpInteraction.setupError m)) :
    ∃ e, checkPawsEligibility sd pub proxy config int = Except.error e := by
  rcases h with ⟨m, hm⟩ | ⟨m, hm⟩
  · subst hm
    exact ⟨_, rfl⟩
  · subst hm
    exact ⟨_, rfl⟩

/-- A boolean filter partitions a list: the two partition lengths sum to the
list's length. -/
theorem length_filter_add_length_filter_not {α : Type} (l : List α) (p : α → Bool) :
    (l.filter p).length + (l.filter (fun a => !p a)).length = l.length := by
  induction l with
  | nil => simp
  | cons a l ih =>
    by_cases h : p a = true
    · simp [List.filter, h, ← ih]
      omega
    · have h2 : p a = false := by simpa using h
      simp [List.filter, h2, ← ih]
      omega

/-- Base-58 digit strings only use alphabet characters. -/
theorem natToBase58Aux_mem {c : Char} :
    ∀ fuel n, c ∈ natToBase58Aux fuel n → c ∈ base58Alphabet := by
  intro fuel
  induction fuel with
  | zero => intro n h; simp [natToBase58Aux] at h
  | succ fuel ih =>
    intro n h
    unfold natToBase58Aux at h
    by_cases hn : n = 0
    · simp [hn] at h
    · simp only [hn, if_false] at h
      rcases List.mem_append.mp h with h2 | h2
      · exact ih _ h2
      · have h3 : c = base58Alphabet.getD (n % 58) '1' := by simpa using h2
        subst h3
        have hlt : n % 58 < base58Alphabet.length := by
          have : n % 58 < 58 := Nat.mod_lt _ (by norm_num)
          have hlen : base58Alphabet.length = 58 := by decide
          omega
        rw [List.getD_eq_getElem _ _ hlt]
        exact List.getElem_mem _

/-- Every character of a base-58 encoding belongs to the alphabet. -/
theorem bs58Encode_mem_alphabet {c : Char} (bytes : List Nat)
    (h : c ∈ (bs58Encode bytes).data) : c ∈ base58Alphabet := by
  unfold bs58Encode at h
  simp only [String.data] at h
  rcases List.mem_append.mp h with h2 | h2
  · have : c = '1' := List.eq_of_mem_replicate h2
    subst this
    decide
  · exact natToBase58Aux_mem _ _ h2

/-- A base-58 encoding never contains a dot. -/
theorem dot_not_mem_bs58 (bytes : List Nat) : '.' ∉ (bs58Encode bytes).data := by
  intro h
  have := bs58Encode_mem_alphabet bytes h
  revert this
  decide

/-- A string ending in `...` differs from any string free of dots. -/
theorem append_dots_ne (s t : String) (h : '.' ∉ t.data) : s ++ "..." ≠ t := by
  intro he
  apply h
  rw [← he, String.data_append]
  simp

/-- Pipeline evaluation when keypair derivation returns `null`: one derivation
invocation, the early-return record, no signing and no API call. -/
theorem checkWallet_kp_none (pk : String) (proxy : Option String) (config : Config)
    (ints : Nat → HttpInteraction) (rand : Nat → ℚ)
    (h : createKeypairFromPrivateKey pk = none) :
    checkWalletEligibility pk proxy config ints rand =
      ({ publicKey := "unknown", eligible := false, amount := none,
         error := some "Failed to create keypair" }, ⟨1, 0, 0⟩) := by
  unfold checkWalletEligibility
  rw [withRetry_const_ok, h]

/-- Pipeline evaluation when keypair derivation succeeds: derivation and signing
are invoked once each and the result is decided by the eligibility call. -/
theorem checkWallet_kp_some (pk : String) (proxy : Option String) (config : Config)
    (ints : Nat → HttpInteraction) (rand : Nat → ℚ) (kp : Keypair)
    (h : createKeypairFromPrivateKey pk = some kp) :
    checkWalletEligibility pk proxy config ints rand =
      match checkEligibilityWithRetry
          ⟨bs58Encode (naclSignDetached (config.signatureMessage.toList.map Char.toNat) kp.secretKey),
           publicKeyToBase58 kp⟩
          (publicKeyToBase58 kp) proxy config config.retryOptions ints rand with
      | (Except.ok r, k, _) =>
        ({ publicKey := publicKeyToBase58 kp, eligible := r.eligible, amount := some r.amount,
           error := r.error }, ⟨1, 1, k⟩)
      | (Except.error e, k, _) => (catchResult pk e, ⟨1, 1, k⟩) := by
  unfold checkWalletEligibility
  rw [withRetry_const_ok, h]
  show (match withRetry (fun _ => Except.ok (signMessage kp config.signatureMessage))
      rand config.retryOptions with
    | (Except.error e, m, _) => (catchResult pk e, CheckCounts.mk 1 m 0)
    | (Except.ok none, m, _) =>
      ({ publicKey := publicKeyToBase58 kp, eligible := false, amount := none,
         error := some "Failed to sign message" }, CheckCounts.mk 1 m 0)
    | (Except.ok (some signedData), m, _) =>
      match checkEligibilityWithRetry signedData (publicKeyToBase58 kp) proxy config
          config.retryOptions ints rand with
      | (Except.ok r, k, _) =>
        ({ publicKey := publicKeyToBase58 kp, eligible := r.eligible, amount := some r.amount,
           error := r.error }, CheckCounts.mk 1 m k)
      | (Except.error e, k, _) => (catchResult pk e, CheckCounts.mk 1 m k)) = _
  rw [withRetry_const_ok, signMessage_of_keypair _ (createKeypair_secretKey_length h)]

/-- A non-empty key list always runs to completion and saves results. -/
theorem mainRun_ok_of_ne_nil (keys : List String) (config : Config) (proxies : List String)
    (ints : Nat → Nat → HttpInteraction) (rand : Nat → Nat → ℚ) (h : keys ≠ []) :
    mainRun keys config proxies ints rand =
      Except.ok (mainResults keys config proxies ints rand,
                 saveResults (mainResults keys config proxies ints rand)) := by
  unfold mainRun
  have h0 : ¬(keys.length = 0) := by simpa [List.length_eq_zero] using h
  simp [h0]

/-- One record per input key. -/
theorem mainResults_length (keys : List String) (config : Config) (proxies : List String)
    (ints : Nat → Nat → HttpInteraction) (rand : Nat → Nat → ℚ) :
    (mainResults keys config proxies ints rand).length = keys.length := by
  unfold mainResults
  simp

/-- When no attempt receives a response, the eligibility call fails with the
transport message after exactly `retries + 1` invocations. -/
theorem eligRetry_all_noResponse (sd : SignedData) (pub : String) (proxy : Option String)
    (config : Config) (opts : RetryOptions) (ints : Nat → HttpInteraction) (rand : Nat → ℚ)
    (msg : String) (hint : ∀ i, ints i = HttpInteraction.noResponse msg) :
    (checkEligibilityWithRetry sd pub proxy config opts ints rand).1 =
      Except.error ("No response from API: " ++ msg) ∧
    (checkEligibilityWithRetry sd pub proxy config opts ints rand).2.1 = opts.retries + 1 := by
  have hall : ∀ j, (fun i => checkPawsEligibility sd pub proxy config (ints i)) j =
      Except.error ("No response from API: " ++ msg) := by
    intro j
    show checkPawsEligibility sd pub proxy config (ints j) = _
    rw [hint j]
    exact rfl
  have h := withRetryGo_all_error (fun i => checkPawsEligibility sd pub proxy config (ints i))
    rand opts _ hall opts.retries 0 (by omega)
  refine ⟨h.1, ?_⟩
  show (withRetryGo (fun i => checkPawsEligibility sd pub proxy config (ints i))
      rand opts 0 opts.retries).2.1 = opts.retries + 1
  have h2 := h.2
  omega


/-! ## The claims -/


/-- Claim C1: for every input list of N private keys that passes top-level setup
(non-empty), the run produces exactly one outcome record per wallet: the results
collection has exactly N entries, and the number of lines written to the
eligible file plus the number written to the not-eligible file equals N. -/
theorem C1_one_outcome_per_wallet (keys : List String) (config : Config)
    (proxies : List String) (ints : Nat → Nat → HttpInteraction) (rand : Nat → Nat → ℚ)
    (h : keys ≠ []) :
    ∃ results el nel,
      mainRun keys config proxies ints rand = Except.ok (results, el, nel) ∧
      results.length = keys.length ∧
      el.length + nel.length = keys.length := by
  refine ⟨mainResults keys config proxies ints rand,
    (saveResults (mainResults keys config proxies ints rand)).1,
    (saveResults (mainResults keys config proxies ints rand)).2,
    mainRun_ok_of_ne_nil keys config proxies ints rand h, mainResults_length _ _ _ _ _, ?_⟩
  unfold saveResults
  simp only [List.length_map]
  rw [length_filter_add_length_filter_not]
  exact mainResults_length _ _ _ _ _

/-- Witness for C1 at a concrete one-key input. -/
theorem C1_witness :
    ∃ results el nel,
      mainRun ["k"] fixtureConfig []
          (fun _ _ => HttpInteraction.response 200 true 100 none) (fun _ _ => 0) =
        Except.ok (results, el, nel) ∧
      results.length = (["k"] : List String).length ∧
      el.length + nel.length = (["k"] : List String).length :=
  C1_one_outcome_per_wallet ["k"] fixtureConfig []
    (fun _ _ => HttpInteraction.response 200 true 100 none) (fun _ _ => 0) (by decide)

/-- Claim C2: for every operation and retry policy with `retries = k`, the retry
executor invokes the operation at most `k + 1` times; if invocation `i` succeeds
(after failures before it) the executor returns that result with exactly `i + 1`
invocations and no further attempts; every backoff delay is at most
`maxTimeout`; with `k = 0` the operation runs exactly once and a failure
propagates immediately with no backoff wait; and `checkEligibilityWithRetry` is
the same loop applied to the eligibility call. -/
theorem C2_retry_executor {α : Type} (op : Nat → Except String α) (rand : Nat → ℚ)
    (opts : RetryOptions) :
    ((withRetry op rand opts).2.1 ≤ opts.retries + 1) ∧
    (∀ k r, k ≤ opts.retries → (∀ j, j < k → ∃ e, op j = Except.error e) →
      op k = Except.ok r →
      (withRetry op rand opts).1 = Except.ok r ∧ (withRetry op rand opts).2.1 = k + 1) ∧
    (∀ b ∈ (withRetry op rand opts).2.2, b ≤ (opts.maxTimeout : Int)) ∧
    (opts.retries = 0 →
      (withRetry op rand opts).2.1 = 1 ∧
      ∀ e, op 0 = Except.error e → withRetry op rand opts = (Except.error e, 1, [])) ∧
    (∀ sd pk px cfg ints,
      checkEligibilityWithRetry sd pk px cfg opts ints rand =
        withRetry (fun i => checkPawsEligibility sd pk px cfg (ints i)) rand opts) := by
  refine ⟨?_, ?_, ?_, withRetry_zero op rand opts, fun _ _ _ _ _ => rfl⟩
  · have := withRetryGo_count_le op rand opts opts.retries 0
    unfold withRetry
    omega
  · intro k r hk hfail hok
    exact withRetryGo_success_at op rand opts r opts.retries 0 k (by omega) (by omega) hk hok
      (fun j _ hj => hfail j hj)
  · intro b hb
    exact withRetryGo_backoff_le op rand opts opts.retries 0 b hb

/-- Witness for C2: success on the second attempt returns after 2 invocations;
with `retries = 0` a failing operation propagates after exactly 1 invocation
with no backoff. -/
theorem C2_witness :
    (withRetry (fun i => if i = 1 then Except.ok 7 else Except.error "boom")
        (fun _ => 0) ⟨2, 5000, 15000⟩).1 = Except.ok 7 ∧
    (withRetry (fun i => if i = 1 then Except.ok 7 else Except.error "boom")
        (fun _ => 0) ⟨2, 5000, 15000⟩).2.1 = 2 ∧
    withRetry (fun _ => (Except.error "boom" : Except String Nat)) (fun _ => 0)
        ⟨0, 5000, 15000⟩ = (Except.error "boom", 1, []) :=
  ⟨((C2_retry_executor (fun i => if i = 1 then Except.ok 7 else Except.error "boom")
      (fun _ => 0) ⟨2, 5000, 15000⟩).2.1 1 7 (by decide)
      (fun j hj => ⟨"boom", by interval_cases j; rfl⟩) rfl).1,
   ((C2_retry_executor (fun i => if i = 1 then Except.ok 7 else Except.error "boom")
      (fun _ => 0) ⟨2, 5000, 15000⟩).2.1 1 7 (by decide)
      (fun j hj => ⟨"boom", by interval_cases j; rfl⟩) rfl).2,
   ((C2_retry_executor (fun _ => (Except.error "boom" : Except String Nat)) (fun _ => 0)
      ⟨0, 5000, 15000⟩).2.2.2.1 rfl).2 "boom" rfl⟩

/-- Claim C3: a received response with an error status (outside 2xx) makes
`checkPawsEligibility` return a normal result, never a thrown failure: a 400
whose body error is exactly `No OG drop` yields that sentinel result, any other
error status yields `eligible = false, amount = 0` with `body.error` or
`HTTP error <status>` as the error; consequently the retry wrapper performs
exactly one invocation. -/
theorem C3_error_status_is_result (sd : SignedData) (pk : String) (px : Option String)
    (cfg : Config) (status : Nat) (success : Bool) (data : Nat) (err : Option String)
    (h : ¬(200 ≤ status ∧ status < 300)) :
    (∃ v, checkPawsEligibility sd pk px cfg (HttpInteraction.response status success data err) =
      Except.ok v) ∧
    (status = 400 ∧ err = some "No OG drop" →
      checkPawsEligibility sd pk px cfg (HttpInteraction.response status success data err) =
        Except.ok ⟨false, 0, some "No OG drop"⟩) ∧
    (¬(status = 400 ∧ err = some "No OG drop") →
      checkPawsEligibility sd pk px cfg (HttpInteraction.response status success data err) =
        Except.ok ⟨false, 0, some (jsOrString err ("HTTP error " ++ toString status))⟩) ∧
    (∀ opts ints rand, (∀ i, ints i = HttpInteraction.response status success data err) →
      (checkEligibilityWithRetry sd pk px cfg opts ints rand).2.1 = 1) := by
  have hred : checkPawsEligibility sd pk px cfg
      (HttpInteraction.response status success data err) =
      (if status = 400 ∧ err = some "No OG drop" then
        Except.ok { eligible := false, amount := 0, error := some "No OG drop" }
      else
        Except.ok { eligible := false, amount := 0,
                    error := some (jsOrString err ("HTTP error " ++ toString status)) }) := by
    show (if 200 ≤ status ∧ status < 300 then _ else _) = _
    rw [if_neg h]
  refine ⟨?_, ?_, ?_, ?_⟩
  · rw [hred]
    by_cases h4 : status = 400 ∧ err = some "No OG drop"
    · rw [if_pos h4]; exact ⟨_, rfl⟩
    · rw [if_neg h4]; exact ⟨_, rfl⟩
  · intro h4
    rw [hred, if_pos h4]
  · intro h4
    rw [hred, if_neg h4]
  · intro opts ints rand hint
    have hok : ∃ v, checkPawsEligibility sd pk px cfg (ints 0) = Except.ok v := by
      rw [hint 0, hred]
      by_cases h4 : status = 400 ∧ err = some "No OG drop"
      · rw [if_pos h4]; exact ⟨_, rfl⟩
      · rw [if_neg h4]; exact ⟨_, rfl⟩
    obtain ⟨v, hv⟩ := hok
    have hgo := withRetryGo_ok (fun i => checkPawsEligibility sd pk px cfg (ints i))
      rand opts 0 opts.retries v hv
    unfold checkEligibilityWithRetry withRetry
    rw [hgo]

/-- Witness for C3 at a concrete 400 sentinel response and a concrete 500
response. -/
theorem C3_witness :
    checkPawsEligibility ⟨"sig", "pub"⟩ "pub" none fixtureConfig
        (HttpInteraction.response 400 false 0 (some "No OG drop")) =
      Except.ok ⟨false, 0, some "No OG drop"⟩ ∧
    checkPawsEligibility ⟨"sig", "pub"⟩ "pub" none fixtureConfig
        (HttpInteraction.response 500 false 0 none) =
      Except.ok ⟨false, 0, some (jsOrString none ("HTTP error " ++ toString 500))⟩ ∧
    (checkEligibilityWithRetry ⟨"sig", "pub"⟩ "pub" none fixtureConfig
        fixtureConfig.retryOptions
        (fun _ => HttpInteraction.response 400 false 0 (some "No OG drop")) (fun _ => 0)).2.1 = 1 :=
  ⟨(C3_error_status_is_result ⟨"sig", "pub"⟩ "pub" none fixtureConfig 400 false 0
      (some "No OG drop") (by decide)).2.1 ⟨rfl, rfl⟩,
   (C3_error_status_is_result ⟨"sig", "pub"⟩ "pub" none fixtureConfig 500 false 0 none
      (by decide)).2.2.1 (by decide),
   (C3_error_status_is_result ⟨"sig", "pub"⟩ "pub" none fixtureConfig 400 false 0
      (some "No OG drop") (by decide)).2.2.2 fixtureConfig.retryOptions _ _ (fun _ => rfl)⟩

/-- Claim C4: when no HTTP response is received, `checkPawsEligibility` raises a
transport failure that propagates to the retry wrapper; with `retries = 2` and a
failure on every attempt exactly 3 invocations are made, the wallet's final
outcome carries the transport failure message with `eligible = false`, and the
run still completes and writes both output files. -/
theorem C4_transport_failure_retries (pk : String) (kp : Keypair) (msg : String)
    (proxy : Option String) (config : Config) (ints : Nat → HttpInteraction) (rand : Nat → ℚ)
    (hkp : createKeypairFromPrivateKey pk = some kp)
    (hr : config.retryOptions.retries = 2)
    (hint : ∀ i, ints i = HttpInteraction.noResponse msg) :
    (checkWalletEligibility pk proxy config ints rand).2.apiCalls = 3 ∧
    (checkWalletEligibility pk proxy config ints rand).1.eligible = false ∧
    (checkWalletEligibility pk proxy config ints rand).1.error =
      some ("No response from API: " ++ msg) ∧
    (∀ (keys proxies : List String) ints2 rand2, keys ≠ [] →
      ∃ out, mainRun keys config proxies ints2 rand2 = Except.ok out) := by
  rw [checkWallet_kp_some pk proxy config ints rand kp hkp]
  obtain ⟨h1, h2⟩ := eligRetry_all_noResponse
    ⟨bs58Encode (naclSignDetached (config.signatureMessage.toList.map Char.toNat) kp.secretKey),
     publicKeyToBase58 kp⟩
    (publicKeyToBase58 kp) proxy config config.retryOptions ints rand msg hint
  rcases hm : checkEligibilityWithRetry
      ⟨bs58Encode (naclSignDetached (config.signatureMessage.toList.map Char.toNat) kp.secretKey),
       publicKeyToBase58 kp⟩
      (publicKeyToBase58 kp) proxy config config.retryOptions ints rand with ⟨res, k, bs⟩
  rw [hm] at h1 h2
  simp only at h1 h2
  subst h1
  refine ⟨?_, rfl, rfl, ?_⟩
  · show k = 3
    omega
  · intro keys proxies ints2 rand2 hk
    exact ⟨_, mainRun_ok_of_ne_nil keys config proxies ints2 rand2 hk⟩

/-- Witness for C4 at a concrete key and timeout message. -/
theorem C4_witness :
    (checkWalletEligibility pkAllOnes none fixtureConfig
        (fun _ => HttpInteraction.noResponse "timeout of 30000ms exceeded")
        (fun _ => 0)).2.apiCalls = 3 ∧
    (checkWalletEligibility pkAllOnes none fixtureConfig
        (fun _ => HttpInteraction.noResponse "timeout of 30000ms exceeded")
        (fun _ => 0)).1.error =
      some ("No response from API: " ++ "timeout of 30000ms exceeded") :=
  ⟨(C4_transport_failure_retries pkAllOnes ⟨List.replicate 64 0⟩ "timeout of 30000ms exceeded"
      none fixtureConfig _ _ (by decide) rfl (fun _ => rfl)).1,
   (C4_transport_failure_retries pkAllOnes ⟨List.replicate 64 0⟩ "timeout of 30000ms exceeded"
      none fixtureConfig _ _ (by decide) rfl (fun _ => rfl)).2.2.1⟩

/-- Counterexample to C5 as stated: for the malformed key `0` under a policy
with `retries = 2`, keypair derivation is invoked exactly once, not
`maxRetries + 1 = 3` times — derivation returns `null` instead of throwing, so
the retry executor sees a success and never retries. -/
theorem C5_counterexample :
    createKeypairFromPrivateKey "0" = none ∧
    fixtureConfig.retryOptions.retries + 1 = 3 ∧
    (checkWalletEligibility "0" none fixtureConfig
        (fun _ => HttpInteraction.noResponse "t") (fun _ => 0)).2.kpCalls = 1 ∧
    (checkWalletEligibility "0" none fixtureConfig
        (fun _ => HttpInteraction.noResponse "t") (fun _ => 0)).2.kpCalls ≠
      fixtureConfig.retryOptions.retries + 1 := by
  refine ⟨by decide, rfl, ?_, ?_⟩
  · rw [checkWallet_kp_none _ _ _ _ _ (by decide)]
  · rw [checkWallet_kp_none _ _ _ _ _ (by decide)]
    decide

/-- Claim C5 as amended: for every malformed encoded private key, derivation
reports failure by returning `null` rather than raising, so the retry executor
invokes it exactly once; the `null` converts to an outcome record with
`publicKey = \"unknown\"`, `eligible = false` and error
`Failed to create keypair`, and the batch still completes rather than
aborting. -/
theorem C5_derivation_invoked_once (pk : String) (proxy : Option String) (config : Config)
    (ints : Nat → HttpInteraction) (rand : Nat → ℚ)
    (hnone : createKeypairFromPrivateKey pk = none) :
    (checkWalletEligibility pk proxy config ints rand).2.kpCalls = 1 ∧
    (checkWalletEligibility pk proxy config ints rand).1 =
      { publicKey := "unknown", eligible := false, amount := none,
        error := some "Failed to create keypair" } ∧
    (∀ (keys proxies : List String) ints2 rand2, keys ≠ [] →
      ∃ out, mainRun keys config proxies ints2 rand2 = Except.ok out) := by
  rw [checkWallet_kp_none pk proxy config ints rand hnone]
  refine ⟨rfl, rfl, ?_⟩
  intro keys proxies ints2 rand2 hk
  exact ⟨_, mainRun_ok_of_ne_nil keys config proxies ints2 rand2 hk⟩

/-- Witness for the amended C5 at the concrete malformed key `!!`. -/
theorem C5_witness :
    (checkWalletEligibility "!!"  none fixtureConfig
        (fun _ => HttpInteraction.noResponse "t") (fun _ => 0)).2.kpCalls = 1 ∧
    (checkWalletEligibility "!!" none fixtureConfig
        (fun _ => HttpInteraction.noResponse "t") (fun _ => 0)).1 =
      { publicKey := "unknown", eligible := false, amount := none,
        error := some "Failed to create keypair" } :=
  ⟨(C5_derivation_invoked_once "!!" none fixtureConfig _ _ (by decide)).1,
   (C5_derivation_invoked_once "!!" none fixtureConfig _ _ (by decide)).2.1⟩

/-- Counterexample to C6 as stated: the outcome for the malformed key `0`
(keypair derivation failed) has `eligible = false` but its amount is not the
number 0 — the source's early-return object carries no `amount` field at all. -/
theorem C6_counterexample :
    (checkWalletEligibility "0" none fixtureConfig
        (fun _ => HttpInteraction.response 200 true 100 none) (fun _ => 0)).1.eligible = false ∧
    (checkWalletEligibility "0" none fixtureConfig
        (fun _ => HttpInteraction.response 200 true 100 none) (fun _ => 0)).1.amount ≠
      some 0 := by
  rw [checkWallet_kp_none _ _ _ _ _ (by decide)]
  exact ⟨rfl, by decide⟩

/-- Claim C6 as amended: every outcome with `eligible = false` has amount 0 or
no amount field at all; the amount field is only ever set from a successfully
classified API exchange, whose ineligible results carry amount 0 — so outcomes
for wallets whose keypair derivation failed, and catch-block outcomes from an
eligibility call that exhausted its retries on transport failures (like every
other non-API path, the signing-failure early return included), carry no amount
field (`undefined`), not the number 0. -/
theorem C6_ineligible_amount_zero_or_absent (pk : String) (proxy : Option String)
    (config : Config) (ints : Nat → HttpInteraction) (rand : Nat → ℚ) :
    ((checkWalletEligibility pk proxy config ints rand).1.eligible = false →
      (checkWalletEligibility pk proxy config ints rand).1.amount = some 0 ∨
      (checkWalletEligibility pk proxy config ints rand).1.amount = none) ∧
    (createKeypairFromPrivateKey pk = none →
      (checkWalletEligibility pk proxy config ints rand).1.amount = none ∧
      (checkWalletEligibility pk proxy config ints rand).1.eligible = false) ∧
    ((∀ i, (∃ m, ints i = HttpInteraction.noResponse m) ∨
        (∃ m, ints i = HttpInteraction.setupError m)) →
      (checkWalletEligibility pk proxy config ints rand).1.amount = none ∧
      (checkWalletEligibility pk proxy config ints rand).1.eligible = false) ∧
    (∀ a, (checkWalletEligibility pk proxy config ints rand).1.amount = some a →
      ∃ kp r k bs, createKeypairFromPrivateKey pk = some kp ∧
        checkEligibilityWithRetry
          ⟨bs58Encode (naclSignDetached (config.signatureMessage.toList.map Char.toNat)
             kp.secretKey), publicKeyToBase58 kp⟩
          (publicKeyToBase58 kp) proxy config config.retryOptions ints rand =
          (Except.ok r, k, bs) ∧
        a = r.amount ∧
        (checkWalletEligibility pk proxy config ints rand).1.eligible = r.eligible ∧
        (r.eligible = false → r.amount = 0)) := by
  cases hkp : createKeypairFromPrivateKey pk with
  | none =>
    rw [checkWallet_kp_none pk proxy config ints rand hkp]
    refine ⟨fun _ => Or.inr rfl, fun _ => ⟨rfl, rfl⟩, fun _ => ⟨rfl, rfl⟩, ?_⟩
    intro a ha
    exact Option.noConfusion ha
  | some kp =>
    rw [checkWallet_kp_some pk proxy config ints rand kp hkp]
    rcases hm : checkEligibilityWithRetry
        ⟨bs58Encode (naclSignDetached (config.signatureMessage.toList.map Char.toNat) kp.secretKey),
         publicKeyToBase58 kp⟩
        (publicKeyToBase58 kp) proxy config config.retryOptions ints rand with ⟨res, k, bs⟩
    have hm2 : withRetryGo
        (fun i => checkPawsEligibility
          ⟨bs58Encode (naclSignDetached (config.signatureMessage.toList.map Char.toNat)
             kp.secretKey), publicKeyToBase58 kp⟩
          (publicKeyToBase58 kp) proxy config (ints i))
        rand config.retryOptions 0 config.retryOptions.retries = (res, k, bs) := hm
    cases res with
    | error e =>
      refine ⟨fun _ => Or.inr rfl, fun h => Option.noConfusion h, fun _ => ⟨rfl, rfl⟩, ?_⟩
      intro a ha
      exact Option.noConfusion ha
    | ok r =>
      have hex : ∃ j, checkPawsEligibility
          ⟨bs58Encode (naclSignDetached (config.signatureMessage.toList.map Char.toNat)
             kp.secretKey), publicKeyToBase58 kp⟩
          (publicKeyToBase58 kp) proxy config (ints j) = Except.ok r :=
        withRetryGo_ok_exists _ rand config.retryOptions
          config.retryOptions.retries 0 r (by rw [hm2])
      obtain ⟨j, hj⟩ := hex
      refine ⟨?_, fun h => Option.noConfusion h, ?_, ?_⟩
      · intro he
        have he2 : r.eligible = false := he
        left
        show some r.amount = some 0
        rw [paws_ok_amount hj he2]
      · intro hall
        exfalso
        obtain ⟨e, he⟩ := withRetryGo_all_error_exists
          (fun i => checkPawsEligibility
            ⟨bs58Encode (naclSignDetached (config.signatureMessage.toList.map Char.toNat)
               kp.secretKey), publicKeyToBase58 kp⟩
            (publicKeyToBase58 kp) proxy config (ints i))
          rand config.retryOptions config.retryOptions.retries 0
          (fun j => pawsElig_transport_error _ _ proxy config (ints j) (hall j))
        rw [hm2] at he
        exact Except.noConfusion he
      · intro a ha
        have ha2 : some r.amount = some a := ha
        refine ⟨kp, r, k, bs, rfl, hm, (Option.some.inj ha2).symm, rfl,
          fun he => paws_ok_amount hj he⟩

/-- Witness for the amended C6: with all attempts timing out the outcome has no
amount field; an ineligible API result at the same key gives an ineligible
outcome whose amount is 0 or absent. -/
theorem C6_amended_witness :
    (checkWalletEligibility pkAllOnes none fixtureConfig
        (fun _ => HttpInteraction.noResponse "t") (fun _ => 0)).1.amount = none ∧
    (checkWalletEligibility pkAllOnes none fixtureConfig
        (fun _ => HttpInteraction.response 400 false 0 (some "No OG drop"))
        (fun _ => 0)).1.eligible = false ∧
    ((checkWalletEligibility pkAllOnes none fixtureConfig
        (fun _ => HttpInteraction.response 400 false 0 (some "No OG drop"))
        (fun _ => 0)).1.amount = some 0 ∨
      (checkWalletEligibility pkAllOnes none fixtureConfig
        (fun _ => HttpInteraction.response 400 false 0 (some "No OG drop"))
        (fun _ => 0)).1.amount = none) :=
  ⟨((C6_ineligible_amount_zero_or_absent pkAllOnes none fixtureConfig
      (fun _ => HttpInteraction.noResponse "t") (fun _ => 0)).2.2.1
      (fun _ => Or.inl ⟨"t", rfl⟩)).1,
   by decide,
   (C6_ineligible_amount_zero_or_absent pkAllOnes none fixtureConfig
      (fun _ => HttpInteraction.response 400 false 0 (some "No OG drop"))
      (fun _ => 0)).1 (by decide)⟩

/-- Claim C7: the wallet at input index `i` is assigned `proxies[i mod P]` when
proxy usage is enabled and `P > 0`, and no proxy when proxy usage is disabled or
the proxy list is empty; the assignment is a pure function of the input index
(used by `mainResults` at each index), independent of execution order. -/
theorem C7_proxy_assignment (config : Config) (proxies : List String) (i : Nat) :
    (config.enableProxy = true → 0 < proxies.length →
      assignProxy config proxies i = proxies[i % proxies.length]? ∧
      ∃ p, assignProxy config proxies i = some p) ∧
    (config.enableProxy = false ∨ proxies.length = 0 →
      assignProxy config proxies i = none) := by
  constructor
  · intro he hp
    have hi : i % proxies.length < proxies.length := Nat.mod_lt _ hp
    constructor
    · unfold assignProxy
      rw [if_pos ⟨he, hp⟩]
    · refine ⟨proxies[i % proxies.length], ?_⟩
      unfold assignProxy
      rw [if_pos ⟨he, hp⟩, List.getElem?_eq_getElem hi]
  · intro h
    unfold assignProxy
    rcases h with h | h
    · simp [h]
    · simp [h]

/-- Witness for C7 at index 5 with a two-proxy list, enabled and disabled. -/
theorem C7_witness :
    assignProxy { fixtureConfig with enableProxy := true } ["p1", "p2"] 5 =
      (["p1", "p2"] : List String)[5 % 2]? ∧
    assignProxy fixtureConfig ["p1", "p2"] 5 = none :=
  ⟨((C7_proxy_assignment { fixtureConfig with enableProxy := true } ["p1", "p2"] 5).1
      rfl (by decide)).1,
   (C7_proxy_assignment fixtureConfig ["p1", "p2"] 5).2 (Or.inl rfl)⟩

/-- Claim C8: the result writer writes each eligible outcome as a line
`privateKey:publicKey:amount` to the eligible artifact and each ineligible
outcome as a line `privateKey:publicKey` to the not-eligible artifact, and
nothing else; an empty partition is still written, as empty content. -/
theorem C8_result_writer (results : List WalletResult) :
    (∀ r ∈ results, r.eligible = true →
      (r.privateKey ++ ":" ++ r.publicKey ++ ":" ++ jsNumberRepr r.amount) ∈
        (saveResults results).1) ∧
    (∀ s ∈ (saveResults results).1, ∃ r ∈ results, r.eligible = true ∧
      s = r.privateKey ++ ":" ++ r.publicKey ++ ":" ++ jsNumberRepr r.amount) ∧
    (∀ r ∈ results, r.eligible = false →
      (r.privateKey ++ ":" ++ r.publicKey) ∈ (saveResults results).2) ∧
    (∀ s ∈ (saveResults results).2, ∃ r ∈ results, r.eligible = false ∧
      s = r.privateKey ++ ":" ++ r.publicKey) ∧
    ((saveResults results).1 = [] → fileContent (saveResults results).1 = "") ∧
    ((saveResults results).2 = [] → fileContent (saveResults results).2 = "") := by
  refine ⟨?_, ?_, ?_, ?_, ?_, ?_⟩
  · intro r hr he
    unfold saveResults eligibleLine
    simp only [List.mem_map, List.mem_filter]
    exact ⟨r, ⟨hr, he⟩, rfl⟩
  · intro s hs
    unfold saveResults eligibleLine at hs
    simp only [List.mem_map, List.mem_filter] at hs
    obtain ⟨r, ⟨hr, he⟩, hsr⟩ := hs
    exact ⟨r, hr, he, hsr.symm⟩
  · intro r hr he
    unfold saveResults notEligibleLine
    simp only [List.mem_map, List.mem_filter]
    exact ⟨r, ⟨hr, by simp [he]⟩, rfl⟩
  · intro s hs
    unfold saveResults notEligibleLine at hs
    simp only [List.mem_map, List.mem_filter] at hs
    obtain ⟨r, ⟨hr, he⟩, hsr⟩ := hs
    refine ⟨r, hr, ?_, hsr.symm⟩
    simpa using he
  · intro h
    rw [h]
    rfl
  · intro h
    rw [h]
    rfl

/-- Witness for C8 on a concrete two-record collection. -/
theorem C8_witness :
    ("key1" ++ ":" ++ "pub1" ++ ":" ++ jsNumberRepr (some 50)) ∈
      (saveResults [⟨"pub1", true, some 50, none, "key1"⟩,
                    ⟨"pub2", false, some 0, some "No OG drop", "key2"⟩]).1 ∧
    ("key2" ++ ":" ++ "pub2") ∈
      (saveResults [⟨"pub1", true, some 50, none, "key1"⟩,
                    ⟨"pub2", false, some 0, some "No OG drop", "key2"⟩]).2 ∧
    fileContent (saveResults [⟨"pub1", true, some 50, none, "key1"⟩]).2 = "" :=
  ⟨(C8_result_writer [⟨"pub1", true, some 50, none, "key1"⟩,
        ⟨"pub2", false, some 0, some "No OG drop", "key2"⟩]).1
      ⟨"pub1", true, some 50, none, "key1"⟩ (by simp) rfl,
   (C8_result_writer [⟨"pub1", true, some 50, none, "key1"⟩,
        ⟨"pub2", false, some 0, some "No OG drop", "key2"⟩]).2.2.1
      ⟨"pub2", false, some 0, some "No OG drop", "key2"⟩ (by simp) rfl,
   (C8_result_writer [⟨"pub1", true, some 50, none, "key1"⟩]).2.2.2.2.2 (by decide)⟩

/-- Claim C9: with an empty private-key input the run aborts with the logged
error message before consulting the HTTP oracle, producing no output files;
a non-empty input always completes normally, so per-wallet failures never
trigger the abort path. -/
theorem C9_empty_input_aborts (config : Config) (proxies : List String)
    (ints ints2 : Nat → Nat → HttpInteraction) (rand rand2 : Nat → Nat → ℚ) :
    mainRun [] config proxies ints rand = Except.error "No private keys found in pk.txt" ∧
    mainRun [] config proxies ints rand = mainRun [] config proxies ints2 rand2 ∧
    (∀ keys : List String, keys ≠ [] →
      ∃ out, mainRun keys config proxies ints rand = Except.ok out) := by
  refine ⟨rfl, rfl, ?_⟩
  intro keys hk
  exact ⟨_, mainRun_ok_of_ne_nil keys config proxies ints rand hk⟩

/-- Witness for C9 at the empty list and a concrete one-key list. -/
theorem C9_witness :
    mainRun [] fixtureConfig [] (fun _ _ => HttpInteraction.noResponse "t") (fun _ _ => 0) =
      Except.error "No private keys found in pk.txt" ∧
    ∃ out, mainRun ["k"] fixtureConfig [] (fun _ _ => HttpInteraction.noResponse "t")
      (fun _ _ => 0) = Except.ok out :=
  ⟨(C9_empty_input_aborts fixtureConfig [] (fun _ _ => HttpInteraction.noResponse "t")
      (fun _ _ => HttpInteraction.noResponse "t") (fun _ _ => 0) (fun _ _ => 0)).1,
   (C9_empty_input_aborts fixtureConfig [] (fun _ _ => HttpInteraction.noResponse "t")
      (fun _ _ => HttpInteraction.noResponse "t") (fun _ _ => 0) (fun _ _ => 0)).2.2
      ["k"] (by decide)⟩

/-- Claim C10: when the eligibility call exhausts all retries, the outcome's
public-key field is the first 4 characters of the encoded private key followed
by `...` — neither `unknown` nor the derived base-58 public key — and that
truncated string is written as the publicKey part of the wallet's line in the
not-eligible file. -/
theorem C10_truncated_public_key (pk : String) (kp : Keypair) (msg : String)
    (proxy : Option String) (config : Config) (ints : Nat → HttpInteraction) (rand : Nat → ℚ)
    (hkp : createKeypairFromPrivateKey pk = some kp)
    (hint : ∀ i, ints i = HttpInteraction.noResponse msg) :
    (checkWalletEligibility pk proxy config ints rand).1.publicKey = pk.take 4 ++ "..." ∧
    (checkWalletEligibility pk proxy config ints rand).1.publicKey ≠ "unknown" ∧
    (checkWalletEligibility pk proxy config ints rand).1.publicKey ≠ publicKeyToBase58 kp ∧
    (∀ results : List WalletResult,
      attachKey pk (checkWalletEligibility pk proxy config ints rand).1 ∈ results →
      (pk ++ ":" ++ (pk.take 4 ++ "...")) ∈ (saveResults results).2) := by
  have hne : pk ≠ "" := createKeypair_ne_empty hkp
  rw [checkWallet_kp_some pk proxy config ints rand kp hkp]
  obtain ⟨h1, h2⟩ := eligRetry_all_noResponse
    ⟨bs58Encode (naclSignDetached (config.signatureMessage.toList.map Char.toNat) kp.secretKey),
     publicKeyToBase58 kp⟩
    (publicKeyToBase58 kp) proxy config config.retryOptions ints rand msg hint
  rcases hm : checkEligibilityWithRetry
      ⟨bs58Encode (naclSignDetached (config.signatureMessage.toList.map Char.toNat) kp.secretKey),
       publicKeyToBase58 kp⟩
      (publicKeyToBase58 kp) proxy config config.retryOptions ints rand with ⟨res, k, bs⟩
  rw [hm] at h1
  simp only at h1
  subst h1
  have hpub : (catchResult pk ("No response from API: " ++ msg)).publicKey =
      pk.take 4 ++ "..." := by
    unfold catchResult
    simp [hne]
  refine ⟨hpub, ?_, ?_, ?_⟩
  · show (catchResult pk ("No response from API: " ++ msg)).publicKey ≠ "unknown"
    rw [hpub]
    exact append_dots_ne _ _ (by decide)
  · show (catchResult pk ("No response from API: " ++ msg)).publicKey ≠ publicKeyToBase58 kp
    rw [hpub]
    exact append_dots_ne _ _ (dot_not_mem_bs58 _)
  · intro results hr
    unfold saveResults
    simp only [List.mem_map, List.mem_filter]
    refine ⟨attachKey pk (catchResult pk ("No response from API: " ++ msg)), ⟨hr, rfl⟩, ?_⟩
    unfold notEligibleLine attachKey
    show pk ++ ":" ++ (catchResult pk ("No response from API: " ++ msg)).publicKey = _
    rw [hpub]

/-- Witness for C10 at a concrete key whose API calls all time out. -/
theorem C10_witness :
    (checkWalletEligibility pkAllOnes none fixtureConfig
        (fun _ => HttpInteraction.noResponse "t") (fun _ => 0)).1.publicKey =
      pkAllOnes.take 4 ++ "..." ∧
    (checkWalletEligibility pkAllOnes none fixtureConfig
        (fun _ => HttpInteraction.noResponse "t") (fun _ => 0)).1.publicKey ≠
      publicKeyToBase58 ⟨List.replicate 64 0⟩ ∧
    (pkAllOnes ++ ":" ++ (pkAllOnes.take 4 ++ "...")) ∈
      (saveResults [attachKey pkAllOnes
        (checkWalletEligibility pkAllOnes none fixtureConfig
          (fun _ => HttpInteraction.noResponse "t") (fun _ => 0)).1]).2 :=
  ⟨(C10_truncated_public_key pkAllOnes ⟨List.replicate 64 0⟩ "t" none fixtureConfig _ _
      (by decide) (fun _ => rfl)).1,
   (C10_truncated_public_key pkAllOnes ⟨List.replicate 64 0⟩ "t" none fixtureConfig _ _
      (by decide) (fun _ => rfl)).2.2.1,
   (C10_truncated_public_key pkAllOnes ⟨List.replicate 64 0⟩ "t" none fixtureConfig _ _
      (by decide) (fun _ => rfl)).2.2.2 _ (List.mem_singleton_self _)⟩


end Paws
